import Mathlib

/-!
Shallow embedding of the chatops bot (src/bot.py, src/message_handler.py,
src/channel_notification.py).

Conventions of the embedding:
* Python strings are Lean `String`s; `str.lower()` is modelled by mapping
  `Char.toLower` over the character data (the messages involved are ASCII).
* `str.split()` (whitespace split, dropping empty pieces) is `pyTokens`.
* Exceptions are modelled with `Except`: a `try`/`except Exception` block
  becomes a `match` that turns the error branch into the handler result.
  In Python, `sys.exit(0)` raises `SystemExit`, which does NOT derive from
  `Exception`, so it escapes every `except Exception` handler; it is
  modelled as a value `some (sleepSeconds, exitCode)` that short-circuits
  the rest of the handler body.
* Side effects are reified: `send_mattermost_message` calls are collected
  into the list of outbound message bodies, in call order.
-/

/-- Python-style lowercase of a string (`str.lower()` on ASCII text). -/
def pyLower (s : String) : String :=
  ⟨s.data.map Char.toLower⟩

/-- Helper for `pyTokens`: walks the character list, accumulating the
current (reversed) token, splitting at whitespace and dropping empty
pieces, exactly like Python `str.split()` with no argument. -/
def pyTokensChars : List Char → List Char → List String
  | [], [] => []
  | [], cur => [⟨cur.reverse⟩]
  | c :: cs, cur =>
    if c.isWhitespace then
      match cur with
      | [] => pyTokensChars cs []
      | _ => ⟨cur.reverse⟩ :: pyTokensChars cs []
    else
      pyTokensChars cs (c :: cur)

/-- Model of `message_text.lower().split()` from `handle_message`
(src/message_handler.py line 103). -/
def pyTokens (s : String) : List String :=
  pyTokensChars (s.data.map Char.toLower) []

/-- An incoming post (`post_data` dict): channel, author, body. -/
structure Post where
  channel_id : String
  user_id : String
  message : String
deriving DecidableEq, Repr

/-- Exceptions that the embedded handler code can raise. -/
inductive PyExc
  | indexError
deriving DecidableEq, Repr

/-- Mention literal of the bot, from `is_direct_message`
(src/message_handler.py line 44). -/
def bot_mention : String := "@avarc-chatops-bot"

/-- Model of `words[0].lower().startswith("@avarc-chatops-bot")`
(src/message_handler.py lines 42-44).  On an empty token list Python
raises `IndexError` from `words[0]`; that is the `Except.error` case. -/
def is_direct_message (words : List String) : Except PyExc Bool :=
  match words with
  | [] => Except.error PyExc.indexError
  | w :: _ => Except.ok (bot_mention.data.isPrefixOf (w.data.map Char.toLower))

/-- Model of `any(word == "hello" for word in words)`
(src/message_handler.py lines 46-48). -/
def contains_hello_keyword (words : List String) : Bool :=
  words.any (fun word => word == "hello")

/-- Model of `any(word == "help" for word in words)`
(src/message_handler.py lines 50-52). -/
def contains_help_keyword (words : List String) : Bool :=
  words.any (fun word => word == "help")

/-- Model of `any(word == "restart" for word in words)`
(src/message_handler.py lines 54-56). -/
def contains_restart_keyword (words : List String) : Bool :=
  words.any (fun word => word == "restart")

/-- The clarification menu sent when "restart" is the last token
(src/message_handler.py lines 65-68). -/
def what_to_restart_response : String :=
  "Restart? I know how to restart:\n... myself\n... backend\nMaybe tell me explicitly what you want me to do :sweat_smile:"

/-- The farewell sent on "restart yourself" (src/message_handler.py
line 73). -/
def restart_myself_response : String :=
  "I shall restart myself? Hopefully my scion will be an improved version... :innocent:"

/-- The reply for an unrecognized restart target (src/message_handler.py
line 78). -/
def unknown_service_response : String :=
  "I don\x27t know what this is, staying my hand..."

/-- The reply for a direct-addressed message with no "restart" token
(src/message_handler.py line 115). -/
def talking_to_me_response : String :=
  "Are you talking to me :thinking_face: :question:"

/-- The multi-line help text (src/message_handler.py lines 118-124). -/
def help_response : String :=
  "Here are the commands I respond to: ...\n  hello - Try it :wink:\n  help - This message :nerd_face:\n  restart - Restart something on the server"

/-- The hello acknowledgement (src/message_handler.py line 127). -/
def hello_response : String :=
  "... again, General Kenobi :crossed_swords:"

/-- Model of `handle_restart_message` (src/message_handler.py
lines 58-83).  Returns the messages sent and, if the process exits, the pair
(seconds slept before exit via `time.sleep(5)`, exit code passed to
`sys.exit`).  `words.index("restart")` is the FIRST index of "restart";
the guard `restart_index + 1 < len(words)` protects the lookup of the
following token, so `List.getD` with any default is faithful. -/
def handle_restart_message (words : List String) :
    List String × Option (Nat × Nat) :=
  if "restart" ∈ words then
    if words.indexOf "restart" + 1 = words.length then
      ([what_to_restart_response], none)
    else if words.indexOf "restart" + 1 < words.length then
      if words.getD (words.indexOf "restart" + 1) "" = "yourself" then
        ([restart_myself_response], some (5, 0))
      else
        ([unknown_service_response], none)
    else
      (["WUD ???"], none)
  else
    ([], none)

/-- The direct-address block of `handle_message` (src/message_handler.py
lines 109-115): given the already-computed direct-address flag, the
messages it sends and the exit outcome. -/
def directPart (words : List String) (direct : Bool) :
    List String × Option (Nat × Nat) :=
  if direct then
    if contains_restart_keyword words then
      handle_restart_message words
    else
      ([talking_to_me_response], none)
  else
    ([], none)

/-- The help/hello block of `handle_message` (src/message_handler.py
lines 117-128): `if` help `elif` hello. -/
def keywordPart (words : List String) : List String :=
  if contains_help_keyword words then
    [help_response]
  else if contains_hello_keyword words then
    [hello_response]
  else
    []

/-- Body of the `try` block of `handle_message` after the self-message
check (src/message_handler.py lines 102-128), over the token list.
`SystemExit` short-circuits the help/hello block; `IndexError` from
`is_direct_message` propagates to the enclosing `except`. -/
def route (words : List String) :
    Except PyExc (List String × Option (Nat × Nat)) :=
  match is_direct_message words with
  | Except.error e => Except.error e
  | Except.ok direct =>
    match directPart words direct with
    | (msgs, some e) => Except.ok (msgs, some e)
    | (msgs, none) => Except.ok (msgs ++ keywordPart words, none)

/-- Model of `handle_message` (src/message_handler.py lines 86-133):
`botId` is the identifier returned by `driver.users.get_user("me")`.  The outer
`except RequestException` / `except Exception` handlers log and return,
so an in-body exception yields a normal return with no messages sent
(no send precedes the only raise point). -/
def handle_message (botId : String) (p : Post) :
    List String × Option (Nat × Nat) :=
  if p.user_id == botId then
    ([], none)
  else
    match route (pyTokens p.message) with
    | Except.ok r => r
    | Except.error _ => ([], none)

/-- Exceptions the Transport Client can raise during `create_post`:
a RequestException or any other Exception (src/message_handler.py
lines 143-146). -/
inductive SendExc
  | requestExc
  | otherExc
deriving DecidableEq, Repr

/-- Model of `send_mattermost_message` (src/message_handler.py
lines 135-146).  The argument `res` is the outcome of the
`driver.posts.create_post` call on this attempt.  The value records the
posts actually created; the `Except` layer shows what propagates to the
caller: both `except` arms log and return normally, so the error
constructor is never produced. -/
def send_mattermost_message (res : Except SendExc Unit) (msg : String) :
    Except SendExc (List String) :=
  match res with
  | Except.ok _ => Except.ok [msg]
  | Except.error _ => Except.ok []

/-- Processing of a sequence of send attempts in order, each with its
own transport outcome. -/
def sendAll (attempts : List (Except SendExc Unit × String)) :
    List (Except SendExc (List String)) :=
  attempts.map (fun a => send_mattermost_message a.1 a.2)

/-- The two live transport states of the Connection Supervisor. -/
inductive Mode
  | streaming
  | polling
deriving DecidableEq, Repr

/-- Outcome of a `driver.init_websocket` call: it either runs to normal
completion or raises (`WebSocketConnectionClosedException` or any other
Exception). -/
inductive WsOutcome
  | ok
  | closedExc
  | otherExc
deriving DecidableEq, Repr

/-- Value of `self.poll_interval` (src/bot.py line 31), in seconds. -/
def poll_interval : Nat := 10

/-- Value of `self.reconnect_delay` (src/bot.py line 32): 15 minutes,
in seconds. -/
def reconnect_delay : Nat := 15 * 60

/-- Model of `connect_websocket_or_fallback` (src/bot.py
lines 112-126): which transport ends up active.  On a websocket failure
of either kind the method catches the exception and invokes
`poll_messages`, so the Supervisor lands in polling mode instead of
crashing. -/
def connect_websocket_or_fallback (ws : WsOutcome) : Mode :=
  match ws with
  | WsOutcome.ok => Mode.streaming
  | WsOutcome.closedExc => Mode.polling
  | WsOutcome.otherExc => Mode.polling

/-- Mutable loop state of `poll_messages` (src/bot.py lines 155-181):
`last_checked` and `polling_start_time`, in whole seconds. -/
structure PollState where
  lastChecked : Nat
  pollingStart : Nat
deriving DecidableEq, Repr

/-- Environment of one iteration of the `while True` polling loop:
the clock reading, the posts returned per channel by
`get_posts_for_channel` with the `since` watermark, whether the fetch
raised a RequestException (caught by the loop), and the outcome of
`init_websocket` if a reconnection is attempted this iteration. -/
structure PollInputs where
  nowAtFetch : Nat
  channels : List (List Post)
  fetchError : Bool
  wsRetry : WsOutcome
deriving Repr

/-- Observable result of one polling-loop iteration. -/
structure PollStepOut where
  mode : Mode
  state : PollState
  handled : List (List String × Option (Nat × Nat))
  reconnectAttempts : Nat
deriving Repr

/-- Model of one iteration of the `poll_messages` loop body
(src/bot.py lines 160-191).  Every post of every fetched channel is fed
to `handle_message` (line 169); `handled` collects those calls in
order.  When the reconnect threshold is reached the loop calls
`connect_websocket_or_fallback` exactly once: on websocket success the
`break` on line 178 exits polling (mode `streaming`); on failure that
call falls back internally to a fresh `poll_messages`, observationally
a polling loop whose `polling_start_time` restarts at the current
clock.  A fetch RequestException is caught on line 183: nothing is
dispatched and both timestamps keep their values until the next cycle. -/
def pollStep (botId : String) (delay : Nat) (st : PollState)
    (inp : PollInputs) : PollStepOut :=
  if inp.fetchError then
    ⟨Mode.polling, st, [], 0⟩
  else
    let handled :=
      (inp.channels.map (fun ch => ch.map (handle_message botId))).flatten
    if delay ≤ inp.nowAtFetch - st.pollingStart then
      match inp.wsRetry with
      | WsOutcome.ok =>
        ⟨Mode.streaming, ⟨inp.nowAtFetch, st.pollingStart⟩, handled, 1⟩
      | WsOutcome.closedExc =>
        ⟨Mode.polling, ⟨inp.nowAtFetch, inp.nowAtFetch⟩, handled, 1⟩
      | WsOutcome.otherExc =>
        ⟨Mode.polling, ⟨inp.nowAtFetch, inp.nowAtFetch⟩, handled, 1⟩
    else
      ⟨Mode.polling, ⟨inp.nowAtFetch, st.pollingStart⟩, handled, 0⟩

theorem handle_restart_sent_length_le_one (words : List String) :
    (handle_restart_message words).1.length ≤ 1 := by
  unfold handle_restart_message
  split
  · split
    · simp
    · split
      · split <;> simp
      · simp
  · simp

theorem directPart_sent_length_le_one (words : List String) (d : Bool) :
    (directPart words d).1.length ≤ 1 := by
  unfold directPart
  split
  · split
    · exact handle_restart_sent_length_le_one words
    · simp
  · simp

theorem keywordPart_length_le_one (words : List String) :
    (keywordPart words).length ≤ 1 := by
  unfold keywordPart
  split
  · simp
  · split <;> simp

theorem hello_not_in_directPart (words : List String) (d : Bool) :
    hello_response ∉ (directPart words d).1 := by
  unfold directPart handle_restart_message
  split
  · split
    · split
      · split
        · decide
        · split
          · split <;> decide
          · decide
      · decide
    · decide
  · decide

theorem hello_not_in_keywordPart (words : List String)
    (h : contains_hello_keyword words = false) :
    hello_response ∉ keywordPart words := by
  unfold keywordPart
  split
  · decide
  · simp [h]

theorem handle_message_route (botId : String) (p : Post)
    (hu : p.user_id ≠ botId) (r : List String × Option (Nat × Nat))
    (h : route (pyTokens p.message) = Except.ok r) :
    handle_message botId p = r := by
  unfold handle_message
  rw [beq_eq_false_iff_ne.2 hu, h]
  simp

theorem route_exit_eq (words : List String) (d : Bool)
    (hd : is_direct_message words = Except.ok d)
    (msgs : List String) (e : Nat × Nat)
    (hdp : directPart words d = (msgs, some e)) :
    route words = Except.ok (msgs, some e) := by
  unfold route
  rw [hd]
  dsimp only
  rw [hdp]

theorem route_normal_eq (words : List String) (d : Bool)
    (hd : is_direct_message words = Except.ok d)
    (msgs : List String)
    (hdp : directPart words d = (msgs, none)) :
    route words = Except.ok (msgs ++ keywordPart words, none) := by
  unfold route
  rw [hd]
  dsimp only
  rw [hdp]

theorem route_sent_length_le_two (words : List String)
    (r : List String × Option (Nat × Nat)) (h : route words = Except.ok r) :
    r.1.length ≤ 2 := by
  cases words with
  | nil => exact absurd h (by simp [route, is_direct_message])
  | cons w rest =>
    unfold route at h
    simp only [is_direct_message] at h
    rcases hdp : directPart (w :: rest)
        (bot_mention.data.isPrefixOf (w.data.map Char.toLower)) with ⟨msgs, ex⟩
    rw [hdp] at h
    have hlen := directPart_sent_length_le_one (w :: rest)
        (bot_mention.data.isPrefixOf (w.data.map Char.toLower))
    rw [hdp] at hlen
    cases ex with
    | some e =>
      cases h
      simp only at hlen ⊢
      omega
    | none =>
      cases h
      have h2 := keywordPart_length_le_one (w :: rest)
      simp only [List.length_append] at hlen ⊢
      omega

theorem handle_restart_exit_shape (words : List String) :
    (handle_restart_message words).2 = none ∨
    (handle_restart_message words).2 = some (5, 0) := by
  unfold handle_restart_message
  split
  · split
    · simp
    · split
      · split <;> simp
      · simp
  · simp

theorem directPart_exit_shape (words : List String) (d : Bool) :
    (directPart words d).2 = none ∨ (directPart words d).2 = some (5, 0) := by
  unfold directPart
  split
  · split
    · exact handle_restart_exit_shape words
    · simp
  · simp

theorem route_exit_shape (words : List String)
    (r : List String × Option (Nat × Nat)) (h : route words = Except.ok r) :
    r.2 = none ∨ r.2 = some (5, 0) := by
  cases words with
  | nil => exact absurd h (by simp [route, is_direct_message])
  | cons w rest =>
    unfold route at h
    simp only [is_direct_message] at h
    rcases hdp : directPart (w :: rest)
        (bot_mention.data.isPrefixOf (w.data.map Char.toLower)) with ⟨msgs, ex⟩
    rw [hdp] at h
    have h0 := directPart_exit_shape (w :: rest)
        (bot_mention.data.isPrefixOf (w.data.map Char.toLower))
    rw [hdp] at h0
    cases ex with
    | none =>
      cases h
      simp
    | some e =>
      cases h
      simpa using h0

theorem handle_message_exit_shape (botId : String) (q : Post) :
    (handle_message botId q).2 = none ∨
    (handle_message botId q).2 = some (5, 0) := by
  unfold handle_message
  split
  · simp
  · split
    next r hr => exact route_exit_shape _ r hr
    next e he => simp

/-- C1: a post whose author identifier equals the resolved identifier of
the bot user produces no outbound post and never reaches the router,
for any message body. -/
theorem self_post_produces_nothing (botId : String) (p : Post)
    (h : p.user_id = botId) : handle_message botId p = ([], none) := by
  simp [handle_message, h]

theorem self_post_produces_nothing_witness :
    handle_message "BOT" ⟨"C1", "BOT", "@avarc-chatops-bot help hello restart"⟩
      = ([], none) :=
  self_post_produces_nothing "BOT"
    ⟨"C1", "BOT", "@avarc-chatops-bot help hello restart"⟩ rfl

/-- C2 counterexample: a qualifying post that is direct-addressed and
contains "help" gets two outbound posts, not at most one: the
direct-address reply and, separately, the help text. -/
theorem direct_help_counterexample :
    ("U2" : String) ≠ "BOT" ∧
    ¬ (handle_message "BOT" ⟨"C1", "U2", "@avarc-chatops-bot help"⟩).1.length ≤ 1 := by
  decide

/-- C2 amended: per qualifying inbound post, at most two outbound
posts: at most one from the direct-address/restart block and at most
one from the help-or-hello block. -/
theorem at_most_two_outbound_posts (botId : String) (p : Post) :
    (handle_message botId p).1.length ≤ 2 := by
  unfold handle_message
  split
  · simp
  · split
    next r hr => exact route_sent_length_le_two _ r hr
    next e he => simp

/-- C3: the restart sub-flow on a direct-addressed token sequence
containing "restart": if "restart" is the last token the bot sends the
clarification menu and keeps running; if the token after the first
"restart" is "yourself" the bot sends the farewell, sleeps 5 seconds
and exits the process with success status 0; for any other following
token it sends the unknown-target reply and keeps running.  The final
conjunct records that this success exit is the only process
termination the dispatcher ever produces. -/
theorem restart_subflow (botId : String) (p : Post)
    (hu : p.user_id ≠ botId)
    (hd : is_direct_message (pyTokens p.message) = Except.ok true)
    (hr : "restart" ∈ pyTokens p.message) :
    ((pyTokens p.message).indexOf "restart" + 1 = (pyTokens p.message).length →
      what_to_restart_response ∈ (handle_message botId p).1 ∧
      (handle_message botId p).2 = none) ∧
    ((pyTokens p.message).indexOf "restart" + 1 < (pyTokens p.message).length →
      (pyTokens p.message).getD ((pyTokens p.message).indexOf "restart" + 1) "" = "yourself" →
      (handle_message botId p).1 = [restart_myself_response] ∧
      (handle_message botId p).2 = some (5, 0)) ∧
    ((pyTokens p.message).indexOf "restart" + 1 < (pyTokens p.message).length →
      (pyTokens p.message).getD ((pyTokens p.message).indexOf "restart" + 1) "" ≠ "yourself" →
      unknown_service_response ∈ (handle_message botId p).1 ∧
      (handle_message botId p).2 = none) ∧
    (∀ q : Post, (handle_message botId q).2 ≠ none →
      (handle_message botId q).2 = some (5, 0)) := by
  have hcr : contains_restart_keyword (pyTokens p.message) = true := by
    simp only [contains_restart_keyword, List.any_eq_true]
    exact ⟨"restart", hr, by simp⟩
  refine ⟨?_, ?_, ?_,
    fun q hq => (handle_message_exit_shape botId q).resolve_left hq⟩
  · intro hlast
    have hrm : handle_restart_message (pyTokens p.message) =
        ([what_to_restart_response], none) := by
      unfold handle_restart_message
      rw [if_pos hr, if_pos hlast]
    have hdp : directPart (pyTokens p.message) true =
        ([what_to_restart_response], none) := by
      simp [directPart, hcr, hrm]
    rw [handle_message_route botId p hu _ (route_normal_eq _ true hd _ hdp)]
    exact ⟨List.mem_append_left _ (by simp), rfl⟩
  · intro hlt hy
    have hrm : handle_restart_message (pyTokens p.message) =
        ([restart_myself_response], some (5, 0)) := by
      unfold handle_restart_message
      rw [if_pos hr, if_neg (by omega), if_pos hlt, if_pos hy]
    have hdp : directPart (pyTokens p.message) true =
        ([restart_myself_response], some (5, 0)) := by
      simp [directPart, hcr, hrm]
    rw [handle_message_route botId p hu _ (route_exit_eq _ true hd _ _ hdp)]
    exact ⟨rfl, rfl⟩
  · intro hlt hy
    have hrm : handle_restart_message (pyTokens p.message) =
        ([unknown_service_response], none) := by
      unfold handle_restart_message
      rw [if_pos hr, if_neg (by omega), if_pos hlt, if_neg hy]
    have hdp : directPart (pyTokens p.message) true =
        ([unknown_service_response], none) := by
      simp [directPart, hcr, hrm]
    rw [handle_message_route botId p hu _ (route_normal_eq _ true hd _ hdp)]
    exact ⟨List.mem_append_left _ (by simp), rfl⟩

theorem restart_subflow_yourself_witness :
    (handle_message "BOT" ⟨"C1", "U2", "@avarc-chatops-bot restart yourself"⟩).1
      = [restart_myself_response] ∧
    (handle_message "BOT" ⟨"C1", "U2", "@avarc-chatops-bot restart yourself"⟩).2
      = some (5, 0) :=
  (restart_subflow "BOT" ⟨"C1", "U2", "@avarc-chatops-bot restart yourself"⟩
      (by decide) (by rfl) (by decide)).2.1 (by decide) (by decide)

/-- C4: when the first token, lowercased, is the configured mention name
of the bot (so: the mention name in any letter case), the direct-address
check returns true on the token sequence. -/
theorem direct_address_on_mention (w0 : String) (rest : List String)
    (h : pyLower w0 = bot_mention) :
    is_direct_message (w0 :: rest) = Except.ok true := by
  have hd : w0.data.map Char.toLower = bot_mention.data := congrArg String.data h
  simp [is_direct_message, hd, List.isPrefixOf_iff_prefix]

theorem direct_address_on_mention_witness :
    pyLower "@AVARC-ChatOps-Bot" = bot_mention ∧
    is_direct_message ["@AVARC-ChatOps-Bot", "restart"] = Except.ok true :=
  ⟨by decide, direct_address_on_mention "@AVARC-ChatOps-Bot" ["restart"] (by decide)⟩

/-- C5 counterexample: the restart-yourself exit preempts the help
reply, so a token sequence containing both "help" and "hello" can
produce no help text at all. -/
theorem help_priority_counterexample :
    ("U2" : String) ≠ "BOT" ∧
    "help" ∈ pyTokens "@avarc-chatops-bot restart yourself help hello" ∧
    "hello" ∈ pyTokens "@avarc-chatops-bot restart yourself help hello" ∧
    help_response ∉
      (handle_message "BOT"
        ⟨"C1", "U2", "@avarc-chatops-bot restart yourself help hello"⟩).1 := by
  decide

/-- C5 amended: for every token sequence containing both "help" and
"hello", unless the handler terminates the process through the
restart-yourself path, the help text is produced; and the hello
acknowledgement is never produced. -/
theorem help_over_hello (botId : String) (p : Post)
    (hu : p.user_id ≠ botId)
    (hhelp : "help" ∈ pyTokens p.message)
    (_hhello : "hello" ∈ pyTokens p.message) :
    ((handle_message botId p).2 = none →
      help_response ∈ (handle_message botId p).1) ∧
    hello_response ∉ (handle_message botId p).1 := by
  obtain ⟨w, rest, hws⟩ : ∃ w rest, pyTokens p.message = w :: rest := by
    cases h : pyTokens p.message with
    | nil => rw [h] at hhelp; cases hhelp
    | cons w rest => exact ⟨w, rest, rfl⟩
  have hch : contains_help_keyword (pyTokens p.message) = true := by
    simp only [contains_help_keyword, List.any_eq_true]
    exact ⟨"help", hhelp, by simp⟩
  have hkw : keywordPart (pyTokens p.message) = [help_response] := by
    simp [keywordPart, hch]
  have hd : is_direct_message (pyTokens p.message) =
      Except.ok (bot_mention.data.isPrefixOf (w.data.map Char.toLower)) := by
    rw [hws]; rfl
  rcases hdp : directPart (pyTokens p.message)
      (bot_mention.data.isPrefixOf (w.data.map Char.toLower)) with ⟨msgs, ex⟩
  have hmsgs : hello_response ∉ msgs := by
    have h0 := hello_not_in_directPart (pyTokens p.message)
        (bot_mention.data.isPrefixOf (w.data.map Char.toLower))
    rw [hdp] at h0
    exact h0
  cases ex with
  | some e =>
    rw [handle_message_route botId p hu _ (route_exit_eq _ _ hd _ _ hdp)]
    refine ⟨fun hnone => absurd hnone (by simp), hmsgs⟩
  | none =>
    rw [handle_message_route botId p hu _ (route_normal_eq _ _ hd _ hdp)]
    refine ⟨fun _ => ?_, ?_⟩
    · rw [hkw]
      exact List.mem_append_right _ (by simp)
    · rw [hkw]
      intro hmem
      rcases List.mem_append.1 hmem with h1 | h1
      · exact hmsgs h1
      · exact absurd h1 (by decide)

theorem help_over_hello_witness :
    help_response ∈ (handle_message "BOT" ⟨"C1", "U2", "help hello"⟩).1 ∧
    hello_response ∉ (handle_message "BOT" ⟨"C1", "U2", "help hello"⟩).1 :=
  ⟨(help_over_hello "BOT" ⟨"C1", "U2", "help hello"⟩
      (by decide) (by decide) (by decide)).1 (by decide),
   (help_over_hello "BOT" ⟨"C1", "U2", "help hello"⟩
      (by decide) (by decide) (by decide)).2⟩

/-- C6 counterexample: the restart-yourself exit preempts the hello
reply, so a token sequence with a whole "hello" token and no "help" can
produce no hello acknowledgement. -/
theorem hello_trigger_counterexample :
    ("U2" : String) ≠ "BOT" ∧
    "hello" ∈ pyTokens "@avarc-chatops-bot restart yourself hello" ∧
    "help" ∉ pyTokens "@avarc-chatops-bot restart yourself hello" ∧
    hello_response ∉
      (handle_message "BOT"
        ⟨"C1", "U2", "@avarc-chatops-bot restart yourself hello"⟩).1 := by
  decide

/-- C6 amended: a token sequence with the whole token "hello" and no
"help" gets the hello acknowledgement unless the handler terminates the
process through the restart-yourself path; and no post whose tokens
never equal "hello" (for example a lone "sayhello" token) ever triggers
the acknowledgement, which is the word-boundary semantics. -/
theorem hello_whole_token (botId : String) (p : Post)
    (hu : p.user_id ≠ botId)
    (hhello : "hello" ∈ pyTokens p.message)
    (hhelp : "help" ∉ pyTokens p.message) :
    ((handle_message botId p).2 = none →
      hello_response ∈ (handle_message botId p).1) ∧
    (∀ q : Post, (∀ w ∈ pyTokens q.message, w ≠ "hello") →
      hello_response ∉ (handle_message botId q).1) := by
  constructor
  · obtain ⟨w, rest, hws⟩ : ∃ w rest, pyTokens p.message = w :: rest := by
      cases h : pyTokens p.message with
      | nil => rw [h] at hhello; cases hhello
      | cons w rest => exact ⟨w, rest, rfl⟩
    have hch : contains_help_keyword (pyTokens p.message) = false := by
      simp only [contains_help_keyword, List.any_eq_false]
      intro x hx
      simp only [beq_iff_eq]
      rintro rfl
      exact hhelp hx
    have hcho : contains_hello_keyword (pyTokens p.message) = true := by
      simp only [contains_hello_keyword, List.any_eq_true]
      exact ⟨"hello", hhello, by simp⟩
    have hkw : keywordPart (pyTokens p.message) = [hello_response] := by
      simp [keywordPart, hch, hcho]
    have hd : is_direct_message (pyTokens p.message) =
        Except.ok (bot_mention.data.isPrefixOf (w.data.map Char.toLower)) := by
      rw [hws]; rfl
    rcases hdp : directPart (pyTokens p.message)
        (bot_mention.data.isPrefixOf (w.data.map Char.toLower)) with ⟨msgs, ex⟩
    cases ex with
    | some e =>
      rw [handle_message_route botId p hu _ (route_exit_eq _ _ hd _ _ hdp)]
      exact fun hnone => absurd hnone (by simp)
    | none =>
      rw [handle_message_route botId p hu _ (route_normal_eq _ _ hd _ hdp)]
      intro _
      rw [hkw]
      exact List.mem_append_right _ (by simp)
  · intro q hq
    by_cases hub : q.user_id = botId
    · simp [handle_message, hub]
    · have hcho : contains_hello_keyword (pyTokens q.message) = false := by
        simp only [contains_hello_keyword, List.any_eq_false]
        intro x hx
        simp only [beq_iff_eq]
        exact fun hxe => hq x hx hxe
      cases hqs : pyTokens q.message with
      | nil =>
        unfold handle_message
        rw [beq_eq_false_iff_ne.2 hub, hqs]
        simp [route, is_direct_message]
      | cons w rest =>
        have hd : is_direct_message (pyTokens q.message) =
            Except.ok (bot_mention.data.isPrefixOf (w.data.map Char.toLower)) := by
          rw [hqs]; rfl
        rcases hdp : directPart (pyTokens q.message)
            (bot_mention.data.isPrefixOf (w.data.map Char.toLower)) with ⟨msgs, ex⟩
        have hmsgs : hello_response ∉ msgs := by
          have h0 := hello_not_in_directPart (pyTokens q.message)
              (bot_mention.data.isPrefixOf (w.data.map Char.toLower))
          rw [hdp] at h0
          exact h0
        cases ex with
        | some e =>
          rw [handle_message_route botId q hub _ (route_exit_eq _ _ hd _ _ hdp)]
          exact hmsgs
        | none =>
          rw [handle_message_route botId q hub _ (route_normal_eq _ _ hd _ hdp)]
          intro hmem
          rcases List.mem_append.1 hmem with h1 | h1
          · exact hmsgs h1
          · exact hello_not_in_keywordPart (pyTokens q.message) hcho h1

theorem hello_whole_token_witness :
    hello_response ∈ (handle_message "BOT" ⟨"C1", "U2", "hello there"⟩).1 ∧
    hello_response ∉ (handle_message "BOT" ⟨"C1", "U2", "sayhello"⟩).1 :=
  ⟨(hello_whole_token "BOT" ⟨"C1", "U2", "hello there"⟩
      (by decide) (by decide) (by decide)).1 (by decide),
   (hello_whole_token "BOT" ⟨"C1", "U2", "hello there"⟩
      (by decide) (by decide) (by decide)).2 ⟨"C1", "U2", "sayhello"⟩ (by decide)⟩

/-- C7: when the push subscription ends with a closed or error
condition, the Supervisor lands in Polling instead of crashing, and a
polling cycle feeds every post fetched from every channel to the
Message Dispatcher, in order. -/
theorem fallback_to_polling_dispatches (ws : WsOutcome) (botId : String)
    (delay : Nat) (st : PollState) (inp : PollInputs)
    (hws : ws ≠ WsOutcome.ok) (hf : inp.fetchError = false) :
    connect_websocket_or_fallback ws = Mode.polling ∧
    (pollStep botId delay st inp).handled =
      inp.channels.flatten.map (handle_message botId) := by
  constructor
  · cases ws with
    | ok => exact absurd rfl hws
    | closedExc => rfl
    | otherExc => rfl
  · unfold pollStep
    rw [hf]
    simp only [Bool.false_eq_true, if_false, List.map_flatten]
    split
    · split <;> rfl
    · rfl

theorem fallback_to_polling_dispatches_witness :
    connect_websocket_or_fallback WsOutcome.closedExc = Mode.polling ∧
    (pollStep "BOT" reconnect_delay ⟨0, 0⟩
        ⟨0, [[⟨"C1", "U2", "hello"⟩]], false, WsOutcome.closedExc⟩).handled =
      ([[(⟨"C1", "U2", "hello"⟩ : Post)]].flatten).map (handle_message "BOT") :=
  fallback_to_polling_dispatches WsOutcome.closedExc "BOT" reconnect_delay ⟨0, 0⟩
    ⟨0, [[⟨"C1", "U2", "hello"⟩]], false, WsOutcome.closedExc⟩ (by decide) rfl

/-- C8: once the elapsed polling time reaches the 15-minute threshold
the loop makes exactly one reconnection attempt; on websocket success
the polling loop exits to Streaming, on failure it stays in Polling
with the polling-start timestamp reset to the current clock, without
crashing. -/
theorem polling_reconnect_at_threshold (botId : String) (st : PollState)
    (inp : PollInputs) (hf : inp.fetchError = false)
    (hth : reconnect_delay ≤ inp.nowAtFetch - st.pollingStart) :
    (pollStep botId reconnect_delay st inp).reconnectAttempts = 1 ∧
    (inp.wsRetry = WsOutcome.ok →
      (pollStep botId reconnect_delay st inp).mode = Mode.streaming) ∧
    (inp.wsRetry ≠ WsOutcome.ok →
      (pollStep botId reconnect_delay st inp).mode = Mode.polling ∧
      (pollStep botId reconnect_delay st inp).state.pollingStart =
        inp.nowAtFetch) := by
  unfold pollStep
  rw [hf]
  simp only [Bool.false_eq_true, if_false, if_pos hth]
  cases h : inp.wsRetry with
  | ok => exact ⟨rfl, fun _ => rfl, fun hne => absurd rfl hne⟩
  | closedExc => exact ⟨rfl, fun he => absurd he (by simp), fun _ => ⟨rfl, rfl⟩⟩
  | otherExc => exact ⟨rfl, fun he => absurd he (by simp), fun _ => ⟨rfl, rfl⟩⟩

theorem polling_reconnect_at_threshold_witness :
    (pollStep "BOT" reconnect_delay ⟨0, 0⟩
        ⟨900, [], false, WsOutcome.closedExc⟩).reconnectAttempts = 1 ∧
    (pollStep "BOT" reconnect_delay ⟨0, 0⟩
        ⟨900, [], false, WsOutcome.closedExc⟩).mode = Mode.polling ∧
    (pollStep "BOT" reconnect_delay ⟨0, 0⟩
        ⟨900, [], false, WsOutcome.closedExc⟩).state.pollingStart = 900 :=
  ⟨(polling_reconnect_at_threshold "BOT" ⟨0, 0⟩
      ⟨900, [], false, WsOutcome.closedExc⟩ rfl (by decide)).1,
   ((polling_reconnect_at_threshold "BOT" ⟨0, 0⟩
      ⟨900, [], false, WsOutcome.closedExc⟩ rfl (by decide)).2.2 (by decide)).1,
   ((polling_reconnect_at_threshold "BOT" ⟨0, 0⟩
      ⟨900, [], false, WsOutcome.closedExc⟩ rfl (by decide)).2.2 (by decide)).2⟩

/-- C9: an error raised by the Transport Client inside the send
operation is caught there: the send never surfaces an error to its
caller, an erroring attempt just creates no post, and send attempts
after an erroring one are processed exactly as they would be alone. -/
theorem send_errors_are_contained (res : Except SendExc Unit) (msg : String) :
    (∀ e : SendExc, send_mattermost_message res msg ≠ Except.error e) ∧
    (∀ e : SendExc, res = Except.error e →
      send_mattermost_message res msg = Except.ok []) ∧
    (∀ pre post : List (Except SendExc Unit × String),
      sendAll (pre ++ (res, msg) :: post) =
        sendAll pre ++ send_mattermost_message res msg :: sendAll post) := by
  refine ⟨?_, ?_, ?_⟩
  · intro e
    cases res <;> simp [send_mattermost_message]
  · intro e h
    rw [h]
    rfl
  · intro pre post
    simp [sendAll]

theorem send_errors_are_contained_witness :
    send_mattermost_message (Except.error SendExc.requestExc) "hi" =
      Except.ok [] :=
  (send_errors_are_contained (Except.error SendExc.requestExc) "hi").2.1
    SendExc.requestExc rfl

/-- C10: a post from another author whose body has no whitespace
separated tokens makes the direct-address check raise an index error,
which the catch-all handler of the dispatcher swallows: no outbound
post and a normal return. -/
theorem empty_message_is_harmless (botId : String) (p : Post)
    (hu : p.user_id ≠ botId) (ht : pyTokens p.message = []) :
    route (pyTokens p.message) = Except.error PyExc.indexError ∧
    handle_message botId p = ([], none) := by
  have hb : (p.user_id == botId) = false := beq_eq_false_iff_ne.2 hu
  constructor
  · rw [ht]; rfl
  · unfold handle_message
    rw [hb, ht]
    rfl

theorem empty_message_is_harmless_witness :
    route (pyTokens "   ") = Except.error PyExc.indexError ∧
    handle_message "BOT" ⟨"C1", "U2", "   "⟩ = ([], none) :=
  empty_message_is_harmless "BOT" ⟨"C1", "U2", "   "⟩ (by decide) (by decide)
